/-
Verification of the physics/control kernel of a multi-tilt-rotor UAV
simulator: quaternion rigid-body dynamics with RK4 integration
(sim/rigid_body.py, sim/lib_dynamics.py), the per-rotor force/torque model
(sim/rotors.py), the plant aggregator with ground contact (sim/plant.py),
the tilt-aware wrench allocator (sim/lib_control.py) and the geometric
closed-loop controller (sim/demo_closedloop_geometric.py).

Floating-point numbers are modelled as real numbers; numpy arrays as
functions out of `Fin n` or as lists where the source length is dynamic.
Exceptions are modelled with `Except`. `np.linalg.solve` fails exactly on
a singular matrix and otherwise returns the unique solution;
`np.linalg.lstsq` returns the minimum-norm least-squares solution.
-/
import Mathlib

noncomputable section

abbrev V3 := Fin 3 → ℝ
abbrev V4 := Fin 4 → ℝ
abbrev M3 := Matrix (Fin 3) (Fin 3) ℝ

/-- Euclidean dot product of 3-vectors (np.dot on length-3 arrays). -/
def dot3 (a b : V3) : ℝ := a 0 * b 0 + a 1 * b 1 + a 2 * b 2

/-- Euclidean norm of a 3-vector (np.linalg.norm). -/
def norm3 (v : V3) : ℝ := Real.sqrt (dot3 v v)

/-- Cross product of 3-vectors (np.cross). -/
def cross3 (a b : V3) : V3 :=
  ![a 1 * b 2 - a 2 * b 1, a 2 * b 0 - a 0 * b 2, a 0 * b 1 - a 1 * b 0]

/-- Euclidean norm of a quaternion, stored scalar-first (np.linalg.norm). -/
def norm4 (q : V4) : ℝ := Real.sqrt (q 0 * q 0 + q 1 * q 1 + q 2 * q 2 + q 3 * q 3)

/-- sim/rigid_body.py quat_mult: Hamilton product, scalar-first. -/
def quat_mult (q r : V4) : V4 :=
  ![q 0 * r 0 - q 1 * r 1 - q 2 * r 2 - q 3 * r 3,
    q 0 * r 1 + q 1 * r 0 + q 2 * r 3 - q 3 * r 2,
    q 0 * r 2 - q 1 * r 3 + q 2 * r 0 + q 3 * r 1,
    q 0 * r 3 + q 1 * r 2 - q 2 * r 1 + q 3 * r 0]

/-- sim/rigid_body.py quat_from_omega: the pure-vector quaternion [0, ω]. -/
def quat_from_omega (omega : V3) : V4 := ![0, omega 0, omega 1, omega 2]

/-- sim/rigid_body.py quat_normalize: q / ‖q‖. -/
def quat_normalize (q : V4) : V4 := fun i => q i / norm4 q

/-- sim/rigid_body.py quat_to_rotmat: standard quaternion-to-matrix formula. -/
def quat_to_rotmat (q : V4) : M3 :=
  let w := q 0; let x := q 1; let y := q 2; let z := q 3
  !![1 - 2 * (y * y + z * z), 2 * (x * y - z * w), 2 * (x * z + y * w);
     2 * (x * y + z * w), 1 - 2 * (x * x + z * z), 2 * (y * z - x * w);
     2 * (x * z - y * w), 2 * (y * z + x * w), 1 - 2 * (x * x + y * y)]

/-- sim/rotors.py axis_angle_to_rotmat: Rodrigues formula, the axis divided
by (its norm + 1e-9) to avoid division by zero. -/
def axis_angle_to_rotmat (axis : V3) (angle : ℝ) : M3 :=
  let a : V3 := fun i => axis i / (norm3 axis + 1 / 1000000000)
  let x := a 0; let y := a 1; let z := a 2
  let c := Real.cos angle
  let s := Real.sin angle
  let C := 1 - c
  !![c + x * x * C, x * y * C - z * s, x * z * C + y * s;
     y * x * C + z * s, c + y * y * C, y * z * C - x * s;
     z * x * C - y * s, z * y * C + x * s, c + z * z * C]

/-- Full 13-state [p(3), v(3), q(4), w(3)] of sim/rigid_body.py. -/
abbrev S13 := Fin 13 → ℝ

/-- Position slice x[0:3]. -/
def posOf (x : S13) : V3 := ![x 0, x 1, x 2]

/-- Velocity slice x[3:6]. -/
def velOf (x : S13) : V3 := ![x 3, x 4, x 5]

/-- Quaternion slice x[6:10]. -/
def quatOf (x : S13) : V4 := ![x 6, x 7, x 8, x 9]

/-- Body-rate slice x[10:13]. -/
def rateOf (x : S13) : V3 := ![x 10, x 11, x 12]

/-- Assemble a 13-state from its four blocks. -/
def pack13 (p v : V3) (q : V4) (w : V3) : S13 :=
  ![p 0, p 1, p 2, v 0, v 1, v 2, q 0, q 1, q 2, q 3, w 0, w 1, w 2]

/-- sim/rigid_body.py RigidBodyParams. -/
structure RigidBodyParams where
  mass : ℝ
  inertia : M3
  gravity : ℝ

/-- sim/rigid_body.py RigidBody6DOF.dynamics, the force/torque provider
already evaluated to a pair (F_body, tau_body): the state derivative.
`inv_inertia` is computed as the matrix inverse, as in the constructor. -/
def rigid_dynamics (par : RigidBodyParams) (x : S13) (F_body tau_body : V3) : S13 :=
  let q := quat_normalize (quatOf x)
  let w_body := rateOf x
  let R := quat_to_rotmat q
  let p_dot := velOf x
  let v_dot := ![0, 0, -par.gravity] + (1 / par.mass) • R.mulVec F_body
  let q_dot := (1 / 2 : ℝ) • quat_mult q (quat_from_omega w_body)
  let w_dot := (par.inertia⁻¹).mulVec (tau_body - cross3 w_body (par.inertia.mulVec w_body))
  pack13 p_dot v_dot q_dot w_dot

/-- sim/rotors.py RotorConfig. The integer spin direction is modelled as a
real number; `tilt_axes_baselink`/`tilt_axes_rotor` keep the source's
optional-list representation. -/
structure RotorConfig where
  position_baselink : V3
  base_orientation_baselink : M3
  tilt_axes_baselink : Option (List V3)
  tilt_axes_rotor : Option (List V3)
  k_thrust : ℝ
  k_drag : ℝ
  spin_dir : ℝ
  rotor_inertia : ℝ
  tilt_thrust_power : ℝ

/-- sim/rotors.py RotorConfig.tilt_axes: the rotor-frame axes when present,
else the baselink-frame axes, else the empty list. -/
def RotorConfig.tilt_axes (c : RotorConfig) : List V3 :=
  match c.tilt_axes_rotor with
  | some axes => axes
  | none => c.tilt_axes_baselink.getD []

/-- The hinge axis expressed in the baselink frame: a rotor-frame axis is
re-expressed through the base orientation (sim/rotors.py lines 54-59). -/
def RotorConfig.axis_in_baselink (c : RotorConfig) (ax : V3) : V3 :=
  match c.tilt_axes_rotor with
  | some _ => c.base_orientation_baselink.mulVec ax
  | none => ax

/-- sim/rotors.py RotorModel.rotation_body_from_servos: fold the hinge
rotations over the base orientation, pre-multiplying each. -/
def rotation_body_from_servos (c : RotorConfig) (servo_angles : List ℝ) : M3 :=
  (List.zip c.tilt_axes servo_angles).foldl
    (fun R p => axis_angle_to_rotmat (c.axis_in_baselink p.1) p.2 * R)
    c.base_orientation_baselink

/-- sim/rotors.py RotorModel.thrust_and_torque_body: body-frame thrust
force, total torque (arm + drag + gyroscopic) and the rotor rotation. -/
def thrust_and_torque_body (c : RotorConfig) (omega : ℝ) (servo_angles : List ℝ)
    (w_body : Option V3) : V3 × V3 × M3 :=
  let R := rotation_body_from_servos c servo_angles
  let rotor_axis_body := R.mulVec ![0, 0, 1]
  let tilt_cos := max 0 (rotor_axis_body 2)
  let tilt_scale := if c.tilt_thrust_power > 0 then Real.rpow tilt_cos c.tilt_thrust_power else 1
  let thrust_mag := c.k_thrust * omega * omega * tilt_scale
  let F_body := R.mulVec ![0, 0, thrust_mag]
  let torque_drag_body := R.mulVec ![0, 0, c.k_drag * omega * omega * c.spin_dir]
  let tau_gyro : V3 :=
    match w_body with
    | some w => if c.rotor_inertia > 0 then (c.rotor_inertia * omega) • cross3 w rotor_axis_body else 0
    | none => 0
  let torque_arm := cross3 c.position_baselink F_body
  (F_body, torque_arm + torque_drag_body + tau_gyro, R)

/-- sim/plant.py ControlInput. -/
structure ControlInput where
  omegas : List ℝ
  servo_angles : List (List ℝ)

/-- sim/plant.py MultiTiltRotorPlant (rotor list and ground-contact
parameters). -/
structure MultiTiltRotorPlant where
  rotors : List RotorConfig
  ground_height : Option ℝ
  ground_k : ℝ
  ground_d : ℝ

/-- sim/plant.py MultiTiltRotorPlant.force_torque: sum of per-rotor
body-frame forces and torques, plus the optional vertical spring-damper
ground-contact force converted to the body frame. A missing control entry
reads as zero spin / no servo command, as in the source. (The per-rotor
world poses returned for visualization only are not modelled.) -/
def force_torque (pl : MultiTiltRotorPlant) (t : ℝ) (x : S13) (u : ControlInput) : V3 × V3 :=
  let R_body := quat_to_rotmat (quat_normalize (quatOf x))
  let w_body := rateOf x
  let contribs := pl.rotors.enum.map fun p =>
    thrust_and_torque_body p.2 (u.omegas.getD p.1 0) (u.servo_angles.getD p.1 []) (some w_body)
  let total_F0 : V3 := (contribs.map fun c => c.1).sum
  let total_tau : V3 := (contribs.map fun c => c.2.1).sum
  let contact : V3 :=
    match pl.ground_height with
    | some gh =>
      if pl.ground_k > 0 then
        let penetration := gh - x 2
        if penetration > 0 then
          let vz := x 5
          let Fz := pl.ground_k * penetration - pl.ground_d * min vz 0
          if Fz > 0 then R_body.transpose.mulVec ![0, 0, Fz] else 0
        else 0
      else 0
    | none => 0
  (total_F0 + contact, total_tau)

/-- sim/lib_dynamics.py RotorFirstOrderActuator: per-rotor time constants,
clamp bounds and the physical spin-speed state. -/
structure RotorFirstOrderActuator where
  tau : List ℝ
  omega_min : List ℝ
  omega_max : Option (List ℝ)
  omegas : List ℝ

/-- sim/lib_dynamics.py RotorFirstOrderActuator.step: explicit Euler for
the first-order lag, then clamp below by omega_min and (when configured)
above by omega_max. -/
def RotorFirstOrderActuator.step (a : RotorFirstOrderActuator) (omega_cmds : List ℝ)
    (dt : ℝ) : RotorFirstOrderActuator :=
  let raw := List.zipWith (fun p tau_i => p.1 + (p.2 - p.1) * (dt / tau_i))
    (List.zipWith Prod.mk a.omegas omega_cmds) a.tau
  let lo := List.zipWith max raw a.omega_min
  let clamped := match a.omega_max with
    | none => lo
    | some hi => List.zipWith min lo hi
  { a with omegas := clamped }

/-- sim/lib_dynamics.py ServoSecondOrderActuator._flatten_cmds: pack
per-rotor command lists into one flat per-hinge array, padding missing
rotors/commands with zero. -/
def flatten_cmds (servo_counts : List ℕ) (servo_cmds : Option (List (List ℝ))) : List ℝ :=
  match servo_cmds with
  | none => List.replicate servo_counts.sum 0
  | some cs =>
    (servo_counts.enum.map fun p => (List.range p.2).map fun j => (cs.getD p.1 []).getD j 0).flatten

/-- sim/lib_dynamics.py ServoSecondOrderActuator._unflatten: split the flat
per-hinge array back into per-rotor groups. -/
def unflatten_by : List ℕ → List ℝ → List (List ℝ)
  | [], _ => []
  | c :: cs, l => l.take c :: unflatten_by cs (l.drop c)

/-- sim/lib_dynamics.py ServoSecondOrderActuator. -/
structure ServoSecondOrderActuator where
  servo_counts : List ℕ
  omega_n : List ℝ
  zeta : List ℝ
  angle_min : Option (List ℝ)
  angle_max : Option (List ℝ)
  angle : List ℝ
  rate : List ℝ

/-- sim/lib_dynamics.py ServoSecondOrderActuator.step: semi-implicit Euler
of the damped second-order servo model, then optional angle clamps;
returns the new state and the per-rotor applied angles. -/
def ServoSecondOrderActuator.step (s : ServoSecondOrderActuator)
    (servo_cmds : Option (List (List ℝ))) (dt : ℝ) :
    ServoSecondOrderActuator × List (List ℝ) :=
  let cmd_flat := flatten_cmds s.servo_counts servo_cmds
  let gains := List.zipWith Prod.mk s.omega_n s.zeta
  let states := List.zipWith Prod.mk s.angle s.rate
  let theta_ddot := List.zipWith
    (fun gs c => gs.1.1 ^ 2 * (c - gs.2.1) - 2 * gs.1.2 * gs.1.1 * gs.2.2)
    (List.zipWith Prod.mk gains states) cmd_flat
  let rate1 := List.zipWith (fun r dd => r + dd * dt) s.rate theta_ddot
  let angle1 := List.zipWith (fun a r => a + r * dt) s.angle rate1
  let angle2 := match s.angle_min with
    | none => angle1
    | some lo => List.zipWith max angle1 lo
  let angle3 := match s.angle_max with
    | none => angle2
    | some hi => List.zipWith min angle2 hi
  ({ s with angle := angle3, rate := rate1 }, unflatten_by s.servo_counts angle3)

/-- sim/lib_dynamics.py DynamicsModel: vehicle parameters, rotor list,
optional actuator models, ground-contact parameters, and the simulation
state (x, t). -/
structure DynamicsModel where
  mass : ℝ
  gravity : ℝ
  inertia : M3
  rotors : List RotorConfig
  dt : ℝ
  actuator : Option RotorFirstOrderActuator
  servo_actuator : Option ServoSecondOrderActuator
  ground_height : Option ℝ
  ground_k : ℝ
  ground_d : ℝ
  x : S13
  t : ℝ

/-- The plant a DynamicsModel constructs. -/
def DynamicsModel.plant (d : DynamicsModel) : MultiTiltRotorPlant :=
  ⟨d.rotors, d.ground_height, d.ground_k, d.ground_d⟩

/-- The rigid-body parameters a DynamicsModel constructs. -/
def DynamicsModel.rb (d : DynamicsModel) : RigidBodyParams :=
  ⟨d.mass, d.inertia, d.gravity⟩

/-- sim/lib_dynamics.py DynamicsModel._derivative: plant force/torque at
(t, x, u), fed to the rigid-body state derivative. -/
def DynamicsModel.deriv (d : DynamicsModel) (t : ℝ) (x : S13) (u : ControlInput) : S13 :=
  let ft := force_torque d.plant t x u
  rigid_dynamics d.rb x ft.1 ft.2

/-- sim/lib_dynamics.py DynamicsModel.step: one classical RK4 update of the
state by h, advancing time by h; the derivative is evaluated at times
t, t+h/2, t+h/2 and t+h. -/
def DynamicsModel.step (d : DynamicsModel) (u : ControlInput) (h : ℝ) : DynamicsModel :=
  let k1 := d.deriv d.t d.x u
  let k2 := d.deriv (d.t + h / 2) (d.x + (h / 2) • k1) u
  let k3 := d.deriv (d.t + h / 2) (d.x + (h / 2) • k2) u
  let k4 := d.deriv (d.t + h) (d.x + h • k3) u
  { d with x := d.x + (h / 6) • (k1 + (2 : ℝ) • k2 + (2 : ℝ) • k3 + k4), t := d.t + h }

/-- sim/lib_dynamics.py DynamicsModel.step_with_commands: pass rotor-speed
commands through the first-order actuator when one is configured (else
unchanged), servo commands through the second-order actuator when one is
configured (else as given, defaulting to empty per-rotor lists), then RK4. -/
def DynamicsModel.step_with_commands (d : DynamicsModel) (omega_cmds : List ℝ)
    (servo_angles : Option (List (List ℝ))) (h : ℝ) : DynamicsModel :=
  let omAct : List ℝ × Option RotorFirstOrderActuator :=
    match d.actuator with
    | none => (omega_cmds, none)
    | some a => let a2 := a.step omega_cmds h; (a2.omegas, some a2)
  let svAct : List (List ℝ) × Option ServoSecondOrderActuator :=
    match d.servo_actuator with
    | some s => let r := s.step servo_angles h; (r.2, some r.1)
    | none => (servo_angles.getD (d.rotors.map fun _ => []), none)
  DynamicsModel.step { d with actuator := omAct.2, servo_actuator := svAct.2 }
    ⟨omAct.1, svAct.1⟩ h

/-- n repeated RK4 steps with a fixed control input. -/
def DynamicsModel.stepN (u : ControlInput) (h : ℝ) : ℕ → DynamicsModel → DynamicsModel
  | 0, d => d
  | n + 1, d => DynamicsModel.stepN u h n (d.step u h)

/-- sim/lib_control.py _normalize: v / (‖v‖ + 1e-9). -/
def normalize3 (v : V3) : V3 := fun i => v i / (norm3 v + 1 / 1000000000)

/-- Two-argument arctangent with the quadrant conventions of math.atan2
(real-number model, signed zeros identified). -/
def atan2 (y x : ℝ) : ℝ :=
  if 0 < x then Real.arctan (y / x)
  else if x < 0 then
    (if 0 ≤ y then Real.arctan (y / x) + Real.pi else Real.arctan (y / x) - Real.pi)
  else if 0 < y then Real.pi / 2
  else if y < 0 then -(Real.pi / 2)
  else 0

/-- sim/lib_control.py _tilt_angle_to_align: signed rotation angle about
axis_body best aligning rotor_axis_body to desired_dir_body, via the
projections onto the plane orthogonal to the (normalized) hinge axis. -/
def tilt_angle_to_align (axis_body rotor_axis_body desired_dir_body : V3) : ℝ :=
  let a := normalize3 axis_body
  let r_proj := rotor_axis_body - dot3 a rotor_axis_body • a
  let d_proj := desired_dir_body - dot3 a desired_dir_body • a
  if norm3 r_proj < 1 / 1000000000 ∨ norm3 d_proj < 1 / 1000000000 then 0
  else
    let rn := normalize3 r_proj
    let dn := normalize3 d_proj
    atan2 (dot3 a (cross3 rn dn)) (dot3 rn dn)

/-- sim/lib_control.py TiltAllocator (rotor list and parameters). -/
structure TiltAllocator where
  rotors : List RotorConfig
  thrust_min : ℝ
  thrust_max : ℝ
  tilt_limit : ℝ
  reg : ℝ
  yaw_drag_scale : ℝ

/-- sim/lib_control.py TiltAllocator._aim_servo_single_axis: one clamped
hinge-angle command about the first hinge axis, or [] for a fixed rotor. -/
def TiltAllocator.aim_servo_single_axis (al : TiltAllocator) (r : RotorConfig)
    (desired_dir_body : V3) : List ℝ :=
  match r.tilt_axes with
  | [] => []
  | ax :: _ =>
    let axis_body := r.axis_in_baselink ax
    let rotor_axis_body := r.base_orientation_baselink.mulVec ![0, 0, 1]
    let theta := tilt_angle_to_align axis_body rotor_axis_body desired_dir_body
    [min (max theta (-al.tilt_limit)) al.tilt_limit]

/-- sim/lib_control.py TiltAllocator._thrust_direction_and_tau_col. -/
def TiltAllocator.thrust_direction_and_tau_col (al : TiltAllocator) (r : RotorConfig)
    (servo_angles : List ℝ) : V3 × V3 :=
  let R := rotation_body_from_servos r servo_angles
  let dir_body := R.mulVec ![0, 0, 1]
  let tau_arm := cross3 r.position_baselink dir_body
  let yaw_gain := if r.k_thrust > 1 / 1000000000
    then r.k_drag / r.k_thrust * r.spin_dir * al.yaw_drag_scale else 0
  (dir_body, tau_arm + yaw_gain • dir_body)

/-- Least-squares cost ‖A x − b‖² for a square system. -/
def lstsqCost {n : ℕ} (A : Matrix (Fin n) (Fin n) ℝ) (b x : Fin n → ℝ) : ℝ :=
  ∑ i, (A.mulVec x i - b i) ^ 2

/-- x is a minimizer of ‖A x − b‖² of minimal Euclidean norm: the
documented return value of np.linalg.lstsq. -/
def IsMinNormLstsq {n : ℕ} (A : Matrix (Fin n) (Fin n) ℝ) (b x : Fin n → ℝ) : Prop :=
  (∀ y, lstsqCost A b x ≤ lstsqCost A b y) ∧
  ∀ y, (∀ z, lstsqCost A b y ≤ lstsqCost A b z) → ∑ i, x i ^ 2 ≤ ∑ i, y i ^ 2

/-- The Python exceptions the allocator path can raise:
numpy.linalg.LinAlgError from the solve, ValueError from the wrench-shape
check. -/
inductive PyError where
  | linAlgError
  | valueError

open Classical in
/-- np.linalg.lstsq (rcond=None) on a square system: the minimum-norm
least-squares solution. -/
def lstsq {n : ℕ} (A : Matrix (Fin n) (Fin n) ℝ) (b : Fin n → ℝ) : Fin n → ℝ :=
  if h : ∃ x, IsMinNormLstsq A b x then h.choose else 0

/-- np.linalg.solve on a square system: raises LinAlgError exactly on a
singular matrix, else returns the unique solution A⁻¹ b. -/
def npSolve {n : ℕ} (A : Matrix (Fin n) (Fin n) ℝ) (b : Fin n → ℝ) :
    Except PyError (Fin n → ℝ) :=
  if A.det = 0 then Except.error PyError.linAlgError else Except.ok (A⁻¹.mulVec b)

/-- The preferred thrust direction resolved by TiltAllocator.allocate:
the normalized explicit argument; else the normalized force part of the
wrench when its norm exceeds 1e-6; else body +Z. -/
def TiltAllocator.dir_pref (wrench_des : List ℝ) (desired_dir_body : Option V3) : V3 :=
  match desired_dir_body with
  | some dd => normalize3 dd
  | none =>
    let F_des : V3 := ![wrench_des.getD 0 0, wrench_des.getD 1 0, wrench_des.getD 2 0]
    if norm3 F_des > 1 / 1000000 then normalize3 F_des else ![0, 0, 1]

/-- The per-rotor servo-angle commands built by TiltAllocator.allocate. -/
def TiltAllocator.servo_cmds (al : TiltAllocator) (wrench_des : List ℝ)
    (desired_dir_body : Option V3) : List (List ℝ) :=
  al.rotors.map fun r => al.aim_servo_single_axis r (TiltAllocator.dir_pref wrench_des desired_dir_body)

/-- The 6×n allocation matrix B built by TiltAllocator.allocate: column i
is [thrust_dir_i; tau_col_i]. -/
def TiltAllocator.allocB (al : TiltAllocator) (wrench_des : List ℝ)
    (desired_dir_body : Option V3) : Matrix (Fin 6) (Fin al.rotors.length) ℝ :=
  Matrix.of fun j i =>
    let col := al.thrust_direction_and_tau_col (al.rotors.get i)
      ((al.servo_cmds wrench_des desired_dir_body).getD i [])
    if hj : (j : ℕ) < 3 then col.1 ⟨j, hj⟩
    else col.2 ⟨(j : ℕ) - 3, by have := j.isLt; omega⟩

/-- The regularized normal-equations matrix BᵗB + reg·I. -/
def TiltAllocator.allocBtB (al : TiltAllocator) (wrench_des : List ℝ)
    (desired_dir_body : Option V3) : Matrix (Fin al.rotors.length) (Fin al.rotors.length) ℝ :=
  (al.allocB wrench_des desired_dir_body).transpose * al.allocB wrench_des desired_dir_body
    + al.reg • (1 : Matrix (Fin al.rotors.length) (Fin al.rotors.length) ℝ)

/-- The right-hand side Bᵗ wrench_des. -/
def TiltAllocator.allocBtw (al : TiltAllocator) (wrench_des : List ℝ)
    (desired_dir_body : Option V3) : Fin al.rotors.length → ℝ :=
  (al.allocB wrench_des desired_dir_body).transpose.mulVec fun i => wrench_des.getD i 0

/-- The raw (pre-clamp) thrusts of TiltAllocator.allocate: the regularized
solve, falling back to the least-squares solve when it raises. -/
def TiltAllocator.raw_thrusts (al : TiltAllocator) (wrench_des : List ℝ)
    (desired_dir_body : Option V3) : Fin al.rotors.length → ℝ :=
  match npSolve (al.allocBtB wrench_des desired_dir_body) (al.allocBtw wrench_des desired_dir_body) with
  | Except.ok f => f
  | Except.error _ => lstsq (al.allocBtB wrench_des desired_dir_body) (al.allocBtw wrench_des desired_dir_body)

/-- The clamped thrusts np.clip(f, thrust_min, thrust_max). -/
def TiltAllocator.clamped_thrusts (al : TiltAllocator) (wrench_des : List ℝ)
    (desired_dir_body : Option V3) : Fin al.rotors.length → ℝ :=
  fun i => min (max (al.raw_thrusts wrench_des desired_dir_body i) al.thrust_min) al.thrust_max

/-- sim/lib_control.py TiltAllocator.allocate: servo aiming, regularized
least-squares thrust distribution with singular fallback, thrust clamping
and conversion to spin commands. Raises (ValueError) only on a wrench of
the wrong length. -/
def TiltAllocator.allocate (al : TiltAllocator) (wrench_des : List ℝ)
    (desired_dir_body : Option V3) : Except PyError ControlInput :=
  if wrench_des.length ≠ 6 then
    Except.error PyError.valueError
  else
    let omegas := List.ofFn fun i : Fin al.rotors.length =>
      let r := al.rotors.get i
      let k := if r.k_thrust > 1 / 1000000000 then r.k_thrust else 1
      Real.sqrt (max (al.clamped_thrusts wrench_des desired_dir_body i) 0 / k)
    Except.ok ⟨omegas, al.servo_cmds wrench_des desired_dir_body⟩

/-- Elementwise (Hadamard) product, the numpy `*` on equal-length arrays. -/
def had (a b : V3) : V3 := fun i => a i * b i

/-- sim/demo_closedloop_geometric.py POS_KP. -/
def POS_KP : V3 := ![5, 5, 10]

/-- sim/demo_closedloop_geometric.py VEL_KD. -/
def VEL_KD : V3 := ![4, 4, 8]

/-- sim/demo_closedloop_geometric.py POS_KI. -/
def POS_KI : V3 := ![3 / 2, 3 / 2, 5 / 2]

/-- sim/demo_closedloop_geometric.py ATT_KR. -/
def ATT_KR : V3 := ![8, 8, 4]

/-- sim/demo_closedloop_geometric.py ATT_KW. -/
def ATT_KW : V3 := ![6 / 5, 6 / 5, 7 / 10]

/-- sim/demo_closedloop_geometric.py ATT_KI. -/
def ATT_KI : V3 := ![1 / 2, 1 / 2, 3 / 10]

/-- sim/demo_closedloop_geometric.py control_outer: position/velocity PID
producing the desired world force, and the position error. (The R_body
argument of the source is unused there and omitted.) -/
def control_outer (p v : V3) (mass gravity : ℝ) (target_pos e_int : V3) : V3 × V3 :=
  let e_p := target_pos - p
  let e_v := -v
  (had POS_KP e_p + had VEL_KD e_v + had POS_KI e_int + ![0, 0, mass * gravity], e_p)

/-- sim/demo_closedloop_geometric.py desired_rotation_from_force: desired
rotation whose body +Z aligns with the force, with yaw yaw_des; columns
stacked as [b1, b2, b3]. -/
def desired_rotation_from_force (F_world : V3) (yaw_des : ℝ) : M3 :=
  let b3 := normalize3 F_world
  let b1d : V3 := ![Real.cos yaw_des, Real.sin yaw_des, 0]
  let b2p := normalize3 (cross3 b3 b1d)
  let b2 := if norm3 b2p < 1 / 1000000 then ![0, 1, 0] else b2p
  let b1 := cross3 b2 b3
  Matrix.of fun i j => (![b1 i, b2 i, b3 i] : Fin 3 → ℝ) j

/-- sim/demo_closedloop_geometric.py rotation_from_rpy (Z-Y-X Euler). -/
def rotation_from_rpy (roll pitch yaw : ℝ) : M3 :=
  let cr := Real.cos roll; let sr := Real.sin roll
  let cp := Real.cos pitch; let sp := Real.sin pitch
  let cy := Real.cos yaw; let sy := Real.sin yaw
  !![cy * cp, cy * sp * sr - sy * cr, cy * sp * cr + sy * sr;
     sy * cp, sy * sp * sr + cy * cr, sy * sp * cr - cy * sr;
     -sp, cp * sr, cp * cr]

/-- sim/demo_closedloop_geometric.py attitude_control: geometric attitude
PD on SO(3); returns the torque command and the orientation error e_R. -/
def attitude_control (R_body : M3) (w_body : V3) (R_des : M3) : V3 × V3 :=
  let e_R_mat := (1 / 2 : ℝ) • (R_des.transpose * R_body - R_body.transpose * R_des)
  let e_R : V3 := ![e_R_mat 2 1, e_R_mat 0 2, e_R_mat 1 0]
  (-had ATT_KR e_R - had ATT_KW w_body, e_R)

/-- sim/demo_closedloop_geometric.py clamp_vec: elementwise clamp to ±limit. -/
def clamp_vec (v : V3) (limit : ℝ) : V3 := fun i => min (max (v i) (-limit)) limit

/-- Outputs of one control step of the closed geometric loop. -/
structure ControlStepOut where
  F_world_des : V3
  tau_body_des : V3
  F_body_des : V3
  e_int : V3
  e_att_int : V3

/-- One control step of sim/demo_closedloop_geometric.py run_server's
handler (lines 209-231): outer position loop, integral update with clamp,
desired rotation (explicit rpy target or force-aligned), attitude control,
attitude-integral update with clamp, and the integral torque term. -/
def control_step (x : S13) (mass gravity : ℝ) (target_pos : V3) (target_yaw : ℝ)
    (target_rpy : Option (ℝ × ℝ × ℝ)) (e_int0 e_att_int0 : V3) (dt : ℝ) : ControlStepOut :=
  let p := posOf x
  let v := velOf x
  let R_body := quat_to_rotmat (quat_normalize (quatOf x))
  let co := control_outer p v mass gravity target_pos e_int0
  let F_world_des := co.1
  let e_p := co.2
  let e_int1 := clamp_vec (e_int0 + dt • e_p) 5
  let R_des := match target_rpy with
    | some rpy => rotation_from_rpy rpy.1 rpy.2.1 rpy.2.2
    | none => desired_rotation_from_force F_world_des target_yaw
  let ac := attitude_control R_body (rateOf x) R_des
  let e_R := ac.2
  let e_att_int1 := clamp_vec (e_att_int0 + dt • e_R) (1 / 2)
  let tau_body_des := ac.1 + -had ATT_KI e_att_int1
  let F_body_des := R_body.transpose.mulVec F_world_des
  ⟨F_world_des, tau_body_des, F_body_des, e_int1, e_att_int1⟩

/-! ### Helper lemmas -/

theorem scaled_e3 (m : ℝ) : (![0, 0, m] : V3) = m • ![0, 0, 1] := by
  funext i; fin_cases i <;> simp

theorem mulVec_scaled_e3 (R : M3) (m : ℝ) :
    R.mulVec ![0, 0, m] = m • R.mulVec ![0, 0, 1] := by
  rw [scaled_e3, Matrix.mulVec_smul]

/-- The rotor thrust axis in the body frame: the rotated +Z axis. -/
def rotor_axis (c : RotorConfig) (servo_angles : List ℝ) : V3 :=
  (rotation_body_from_servos c servo_angles).mulVec ![0, 0, 1]

/-- The tilt-thrust falloff factor max(0, cos tilt)^p (1 when p is not
positive). -/
def tilt_scale (c : RotorConfig) (servo_angles : List ℝ) : ℝ :=
  if c.tilt_thrust_power > 0
  then Real.rpow (max 0 (rotor_axis c servo_angles 2)) c.tilt_thrust_power
  else 1

/-! ### C2: per-rotor thrust and torque -/

/-- C2: thrust_and_torque_body returns the force k_thrust·ω² — scaled by
max(0, cos tilt)^p exactly when the falloff exponent is positive — along
the rotor body-frame +Z axis, and the torque arm + drag + gyroscopic, the
gyroscopic term present exactly when a body rate is supplied and the rotor
inertia is positive. -/
theorem c2_rotor_force_torque (c : RotorConfig) (omega : ℝ) (servo_angles : List ℝ)
    (w_body : Option V3) :
    (thrust_and_torque_body c omega servo_angles w_body).1 =
      (c.k_thrust * omega ^ 2 * tilt_scale c servo_angles) • rotor_axis c servo_angles ∧
    (thrust_and_torque_body c omega servo_angles w_body).2.1 =
      cross3 c.position_baselink ((c.k_thrust * omega ^ 2 * tilt_scale c servo_angles) •
          rotor_axis c servo_angles) +
        (c.k_drag * omega ^ 2 * c.spin_dir) • rotor_axis c servo_angles +
        (match w_body with
         | some w => if c.rotor_inertia > 0
            then (c.rotor_inertia * omega) • cross3 w (rotor_axis c servo_angles) else 0
         | none => 0) ∧
    (thrust_and_torque_body c omega servo_angles w_body).2.2 =
      rotation_body_from_servos c servo_angles := by
  have hsq : ∀ a b : ℝ, a * omega * omega * b = a * omega ^ 2 * b := by intro a b; ring
  have hF : (thrust_and_torque_body c omega servo_angles w_body).1 =
      (c.k_thrust * omega ^ 2 * tilt_scale c servo_angles) • rotor_axis c servo_angles := by
    show (rotation_body_from_servos c servo_angles).mulVec ![0, 0, _] = _
    rw [mulVec_scaled_e3, hsq]
    rfl
  refine ⟨hF, ?_, rfl⟩
  show cross3 c.position_baselink
      ((rotation_body_from_servos c servo_angles).mulVec
        ![0, 0, c.k_thrust * omega * omega * tilt_scale c servo_angles]) +
      (rotation_body_from_servos c servo_angles).mulVec
        ![0, 0, c.k_drag * omega * omega * c.spin_dir] + _ = _
  rw [scaled_e3 (c.k_thrust * omega * omega * tilt_scale c servo_angles),
    scaled_e3 (c.k_drag * omega * omega * c.spin_dir),
    Matrix.mulVec_smul, Matrix.mulVec_smul, hsq, hsq]
  rfl

/-! ### C1: RK4 step and state-derivative formula -/

/-- The state derivative of §4.3 as the spec writes it: p_dot = v,
v_dot = [0,0,−g] + (1/m) R(q) F_body, q_dot = ½ q ⊗ [0,w],
w_dot = I⁻¹(τ_body − w × I w), the quaternion renormalized first. -/
def spec_deriv (d : DynamicsModel) (t : ℝ) (x : S13) (u : ControlInput) : S13 :=
  let F_body := (force_torque d.plant t x u).1
  let tau_body := (force_torque d.plant t x u).2
  let q := quat_normalize (quatOf x)
  pack13
    (velOf x)
    (![0, 0, -d.gravity] + (1 / d.mass) • (quat_to_rotmat q).mulVec F_body)
    ((1 / 2 : ℝ) • quat_mult q (quat_from_omega (rateOf x)))
    ((d.inertia⁻¹).mulVec (tau_body - cross3 (rateOf x) (d.inertia.mulVec (rateOf x))))

/-- C1: DynamicsModel.step is one classical fixed-step RK4 update: the
derivative is evaluated at times t, t+h/2, t+h/2 and t+h, the new state is
x + (h/6)(k1 + 2k2 + 2k3 + k4), and every derivative evaluation follows
the rigid-body formulas of spec_deriv (quaternion renormalized before the
rotation matrix or quaternion rate is formed). -/
theorem c1_rk4_step (d : DynamicsModel) (u : ControlInput) (h : ℝ) :
    (∀ t x, d.deriv t x u = spec_deriv d t x u) ∧
    d.step u h =
      (let k1 := d.deriv d.t d.x u
       let k2 := d.deriv (d.t + h / 2) (d.x + (h / 2) • k1) u
       let k3 := d.deriv (d.t + h / 2) (d.x + (h / 2) • k2) u
       let k4 := d.deriv (d.t + h) (d.x + h • k3) u
       { d with x := d.x + (h / 6) • (k1 + (2 : ℝ) • k2 + (2 : ℝ) • k3 + k4),
                t := d.t + h }) :=
  ⟨fun _ _ => rfl, rfl⟩

/-! ### C9: hinge rotation composition -/

theorem foldl_premul (f : V3 × ℝ → M3) (l : List (V3 × ℝ)) (R0 : M3) :
    l.foldl (fun R p => f p * R) R0 = (l.map f).reverse.prod * R0 := by
  induction l generalizing R0 with
  | nil => simp
  | cons a l ih =>
    show l.foldl (fun R p => f p * R) (f a * R0) = _
    rw [ih (f a * R0)]
    simp [List.prod_append, mul_assoc]

/-- C9: rotation_body_from_servos is the base orientation pre-multiplied,
in declaration order, by the axis-angle rotation of each hinge axis/angle
pair (so the last hinge ends leftmost in the product), each axis given in
the rotor frame first re-expressed into the body frame; with no hinge
axes the result is the base orientation. -/
theorem c9_rotation_composes (c : RotorConfig) (servo_angles : List ℝ) :
    rotation_body_from_servos c servo_angles =
      ((List.zip c.tilt_axes servo_angles).map
        (fun p => axis_angle_to_rotmat (c.axis_in_baselink p.1) p.2)).reverse.prod *
        c.base_orientation_baselink ∧
    (c.tilt_axes = [] →
      rotation_body_from_servos c servo_angles = c.base_orientation_baselink) := by
  constructor
  · exact foldl_premul _ _ _
  · intro hz
    unfold rotation_body_from_servos
    rw [hz]
    rfl

/-! ### C5: plant force/torque aggregation with ground contact -/

/-- The list of per-rotor (force, torque, rotation) contributions the
plant sums, the i-th rotor reading spin u.omegas[i] (0 when missing) and
servo angles u.servo_angles[i] ([] when missing). -/
def rotor_contribs (pl : MultiTiltRotorPlant) (x : S13) (u : ControlInput) :
    List (V3 × V3 × M3) :=
  pl.rotors.enum.map fun p =>
    thrust_and_torque_body p.2 (u.omegas.getD p.1 0) (u.servo_angles.getD p.1 []) (some (rateOf x))

/-- C5: the plant's total torque is always the pure sum of per-rotor
torques, and its total force is the sum of per-rotor forces plus — only
when a ground height and a positive spring constant are configured, the
body penetrates (ground_height − p_z > 0) and the spring-damper force
F_z = k·pen − d·min(v_z, 0) is positive — that vertical world force
rotated into the body frame. -/
theorem c5_plant_force_torque (pl : MultiTiltRotorPlant) (t : ℝ) (x : S13) (u : ControlInput) :
    (force_torque pl t x u).2 = ((rotor_contribs pl x u).map fun c => c.2.1).sum ∧
    (force_torque pl t x u).1 =
      ((rotor_contribs pl x u).map fun c => c.1).sum +
      (match pl.ground_height with
       | none => 0
       | some gh =>
         if pl.ground_k > 0 ∧ gh - x 2 > 0 ∧
             pl.ground_k * (gh - x 2) - pl.ground_d * min (x 5) 0 > 0 then
           (quat_to_rotmat (quat_normalize (quatOf x))).transpose.mulVec
             ![0, 0, pl.ground_k * (gh - x 2) - pl.ground_d * min (x 5) 0]
         else 0) := by
  refine ⟨rfl, ?_⟩
  show ((rotor_contribs pl x u).map fun c => c.1).sum + _ = _
  congr 1
  cases hg : pl.ground_height with
  | none => rfl
  | some gh =>
    by_cases h1 : pl.ground_k > 0
    · by_cases h2 : gh - x 2 > 0
      · by_cases h3 : pl.ground_k * (gh - x 2) - pl.ground_d * min (x 5) 0 > 0
        · simp [h1, h2, h3]
        · simp [h1, h2, h3]
      · simp [h1, h2]
    · simp [h1]

/-! ### C6: geometric closed-loop control step -/

/-- The vee operator: the 3-vector of a skew-symmetric matrix. -/
def vee (m : M3) : V3 := ![m 2 1, m 0 2, m 1 0]

/-- The SO(3) orientation error vee(½(R_desᵀR − RᵀR_des)). -/
def e_R_spec (R_body R_des : M3) : V3 :=
  vee ((1 / 2 : ℝ) • (R_des.transpose * R_body - R_body.transpose * R_des))

/-- The desired rotation the control step selects: from an explicit
roll/pitch/yaw target when given, else aligned with the desired force. -/
def R_des_spec (F_world_des : V3) (target_yaw : ℝ) (target_rpy : Option (ℝ × ℝ × ℝ)) : M3 :=
  match target_rpy with
  | some rpy => rotation_from_rpy rpy.1 rpy.2.1 rpy.2.2
  | none => desired_rotation_from_force F_world_des target_yaw

/-- C6: each control step computes
F_world_des = Kp·e_p + Kd·e_v + Ki·∫e_p + [0,0,m·g] with e_p = target − p
and e_v = −v, and tau = −Kr·e_R − Kw·w_body − Ki_att·∫e_R with
e_R = vee(½(R_desᵀR − RᵀR_des)); both integral accumulators are updated
and clamped elementwise to their fixed bounds (5 and 0.5), the position
integral entering F with its pre-update value and the attitude integral
entering tau with its post-update clamped value. -/
theorem c6_control_step (x : S13) (mass gravity : ℝ) (target_pos : V3) (target_yaw : ℝ)
    (target_rpy : Option (ℝ × ℝ × ℝ)) (e_int0 e_att_int0 : V3) (dt : ℝ) :
    (control_step x mass gravity target_pos target_yaw target_rpy e_int0 e_att_int0 dt).F_world_des =
      had POS_KP (target_pos - posOf x) + had VEL_KD (-velOf x) + had POS_KI e_int0 +
        ![0, 0, mass * gravity] ∧
    (control_step x mass gravity target_pos target_yaw target_rpy e_int0 e_att_int0 dt).e_int =
      clamp_vec (e_int0 + dt • (target_pos - posOf x)) 5 ∧
    (control_step x mass gravity target_pos target_yaw target_rpy e_int0 e_att_int0 dt).e_att_int =
      clamp_vec (e_att_int0 + dt • e_R_spec (quat_to_rotmat (quat_normalize (quatOf x)))
        (R_des_spec (had POS_KP (target_pos - posOf x) + had VEL_KD (-velOf x) +
          had POS_KI e_int0 + ![0, 0, mass * gravity]) target_yaw target_rpy)) (1 / 2) ∧
    (control_step x mass gravity target_pos target_yaw target_rpy e_int0 e_att_int0 dt).tau_body_des =
      (let R_body := quat_to_rotmat (quat_normalize (quatOf x))
       let R_des := R_des_spec (had POS_KP (target_pos - posOf x) + had VEL_KD (-velOf x) +
         had POS_KI e_int0 + ![0, 0, mass * gravity]) target_yaw target_rpy
       let e_R := e_R_spec R_body R_des
       let e_att_int1 := clamp_vec (e_att_int0 + dt • e_R) (1 / 2)
       (-had ATT_KR e_R - had ATT_KW (rateOf x) - had ATT_KI e_att_int1 : V3)) := by
  refine ⟨rfl, rfl, rfl, ?_⟩
  show (-had ATT_KR _ - had ATT_KW (rateOf x)) + -had ATT_KI _ = _
  rw [← sub_eq_add_neg]
  rfl

/-! ### C10: zero command, zero gravity, no ground is a fixed point -/

theorem getD_all_zero (l : List ℝ) (h : ∀ a ∈ l, a = 0) (i : ℕ) : l.getD i 0 = 0 := by
  induction l generalizing i with
  | nil => simp
  | cons a l ih =>
    cases i with
    | zero => simpa using h a (by simp)
    | succ n => simpa using ih (fun b hb => h b (by simp [hb])) n

theorem cross3_zero_left (v : V3) : cross3 0 v = 0 := by
  funext i; fin_cases i <;> simp [cross3]

theorem cross3_zero_right (v : V3) : cross3 v 0 = 0 := by
  funext i; fin_cases i <;> simp [cross3]

theorem quat_from_omega_zero : quat_from_omega 0 = 0 := by
  funext i; fin_cases i <;> simp [quat_from_omega]

theorem quat_mult_zero_right (q : V4) : quat_mult q 0 = 0 := by
  funext i; fin_cases i <;> simp [quat_mult]

theorem vec3_zero : (![0, 0, (0 : ℝ)] : V3) = 0 := by
  funext i; fin_cases i <;> simp

theorem pack13_zero : pack13 0 0 0 0 = 0 := by
  funext i; fin_cases i <;> rfl

theorem thrust_zero_omega (c : RotorConfig) (servo_angles : List ℝ) :
    (thrust_and_torque_body c 0 servo_angles (some 0)).1 = 0 ∧
    (thrust_and_torque_body c 0 servo_angles (some 0)).2.1 = 0 := by
  have hm : c.k_thrust * 0 * 0 * tilt_scale c servo_angles = 0 := by ring
  have hd : c.k_drag * 0 * 0 * c.spin_dir = 0 := by ring
  have hF : (thrust_and_torque_body c 0 servo_angles (some 0)).1 = 0 := by
    show (rotation_body_from_servos c servo_angles).mulVec
      ![0, 0, c.k_thrust * 0 * 0 * tilt_scale c servo_angles] = 0
    rw [hm, vec3_zero, Matrix.mulVec_zero]
  refine ⟨hF, ?_⟩
  show cross3 c.position_baselink ((rotation_body_from_servos c servo_angles).mulVec
      ![0, 0, c.k_thrust * 0 * 0 * tilt_scale c servo_angles]) +
    (rotation_body_from_servos c servo_angles).mulVec
      ![0, 0, c.k_drag * 0 * 0 * c.spin_dir] +
    (if c.rotor_inertia > 0
     then (c.rotor_inertia * 0) • cross3 0 (rotor_axis c servo_angles) else 0) = 0
  rw [hm, hd, vec3_zero, Matrix.mulVec_zero, cross3_zero_right]
  have hgyro : (if c.rotor_inertia > 0
      then (c.rotor_inertia * 0) • cross3 (0 : V3) (rotor_axis c servo_angles) else 0) = 0 := by
    split <;> simp [cross3_zero_left]
  rw [hgyro]
  simp

theorem deriv_zero (d : DynamicsModel) (t : ℝ) (x : S13) (u : ControlInput)
    (hg : d.gravity = 0) (hgh : d.ground_height = none)
    (hv : velOf x = 0) (hw : rateOf x = 0) (hu : ∀ a ∈ u.omegas, a = 0) :
    d.deriv t x u = 0 := by
  have hFs : ((rotor_contribs d.plant x u).map fun c => c.1).sum = (0 : V3) := by
    apply List.sum_eq_zero
    intro y hy
    rcases List.mem_map.1 hy with ⟨c, hc, rfl⟩
    rcases List.mem_map.1 hc with ⟨p, _, rfl⟩
    rw [getD_all_zero u.omegas hu p.1, hw]
    exact (thrust_zero_omega p.2 _).1
  have hTs : ((rotor_contribs d.plant x u).map fun c => c.2.1).sum = (0 : V3) := by
    apply List.sum_eq_zero
    intro y hy
    rcases List.mem_map.1 hy with ⟨c, hc, rfl⟩
    rcases List.mem_map.1 hc with ⟨p, _, rfl⟩
    rw [getD_all_zero u.omegas hu p.1, hw]
    exact (thrust_zero_omega p.2 _).2
  have hF : force_torque d.plant t x u = (0, 0) := by
    have hcontact : d.plant.ground_height = none := hgh
    show (((rotor_contribs d.plant x u).map fun c => c.1).sum +
      (match d.plant.ground_height with
       | some gh => _
       | none => (0 : V3)),
      ((rotor_contribs d.plant x u).map fun c => c.2.1).sum) = ((0 : V3), (0 : V3))
    rw [hcontact, hFs, hTs]
    simp
  show rigid_dynamics d.rb x (force_torque d.plant t x u).1 (force_torque d.plant t x u).2 = 0
  rw [hF]
  simp only [rigid_dynamics, DynamicsModel.rb, hv, hw, hg, quat_from_omega_zero,
    quat_mult_zero_right, cross3_zero_left, Matrix.mulVec_zero, smul_zero, neg_zero,
    vec3_zero, add_zero, zero_add, zero_sub, sub_zero]
  exact pack13_zero

theorem step_fixed (d : DynamicsModel) (u : ControlInput) (h : ℝ)
    (hg : d.gravity = 0) (hgh : d.ground_height = none)
    (hv : velOf d.x = 0) (hw : rateOf d.x = 0) (hu : ∀ a ∈ u.omegas, a = 0) :
    (d.step u h).x = d.x := by
  have k_any : ∀ t', d.deriv t' d.x u = 0 := fun t' => deriv_zero d t' d.x u hg hgh hv hw hu
  unfold DynamicsModel.step
  simp [k_any]

/-- C10: with gravity 0, no ground plane, zero velocity and body rate, and
zero spin command on every rotor, the state derivative is identically zero
and any number of RK4 steps leaves the 13-element state unchanged. -/
theorem c10_zero_command_rest (d : DynamicsModel) (u : ControlInput) (h : ℝ)
    (hg : d.gravity = 0) (hgh : d.ground_height = none)
    (hv : velOf d.x = 0) (hw : rateOf d.x = 0) (hu : ∀ a ∈ u.omegas, a = 0) :
    (∀ t x, velOf x = 0 → rateOf x = 0 → d.deriv t x u = 0) ∧
    ∀ n, (DynamicsModel.stepN u h n d).x = d.x := by
  refine ⟨fun t x hv' hw' => deriv_zero d t x u hg hgh hv' hw' hu, ?_⟩
  have main : ∀ n (d' : DynamicsModel), d'.gravity = 0 → d'.ground_height = none →
      velOf d'.x = 0 → rateOf d'.x = 0 → (DynamicsModel.stepN u h n d').x = d'.x := by
    intro n
    induction n with
    | zero => intro d' _ _ _ _; rfl
    | succ n ih =>
      intro d' h1 h2 h3 h4
      have hx : (d'.step u h).x = d'.x := step_fixed d' u h h1 h2 h3 h4 hu
      show (DynamicsModel.stepN u h n (d'.step u h)).x = d'.x
      rw [ih (d'.step u h) h1 h2 (by rw [hx]; exact h3) (by rw [hx]; exact h4), hx]
  exact fun n => main n d hg hgh hv hw

/-! ### C3: the allocator never raises on a singular system -/

/-- C3: for any 6-element wrench, allocate returns a value (never
propagates the solver error); when the regularized normal-equations matrix
BᵗB + reg·I is singular the inner solve raises and the thrusts fall back
to the least-squares solve of that system. -/
theorem c3_allocate_never_raises (al : TiltAllocator) (wrench_des : List ℝ)
    (desired_dir_body : Option V3) (hw : wrench_des.length = 6) :
    (∃ u, al.allocate wrench_des desired_dir_body = Except.ok u) ∧
    ((al.allocBtB wrench_des desired_dir_body).det = 0 →
      npSolve (al.allocBtB wrench_des desired_dir_body)
          (al.allocBtw wrench_des desired_dir_body) = Except.error PyError.linAlgError ∧
      al.raw_thrusts wrench_des desired_dir_body =
        lstsq (al.allocBtB wrench_des desired_dir_body)
          (al.allocBtw wrench_des desired_dir_body)) := by
  constructor
  · simp only [TiltAllocator.allocate, hw]
    exact ⟨_, by rfl⟩
  · intro hdet
    have hsolve : npSolve (al.allocBtB wrench_des desired_dir_body)
        (al.allocBtw wrench_des desired_dir_body) = Except.error PyError.linAlgError := by
      unfold npSolve
      rw [if_pos hdet]
    refine ⟨hsolve, ?_⟩
    unfold TiltAllocator.raw_thrusts
    rw [hsolve]

/-! ### C4: thrust clamping and spin-command conversion -/

/-- C4: every thrust is clamped elementwise into [thrust_min, thrust_max]
before conversion (so, when thrust_min ≤ thrust_max, no used thrust lies
outside the bounds however large the wrench), and each returned spin
command is sqrt(max(thrust, 0)/k_thrust) with k_thrust taken as 1 when it
is at most 1e-9. -/
theorem c4_thrust_clamped (al : TiltAllocator) (wrench_des : List ℝ)
    (desired_dir_body : Option V3) (hw : wrench_des.length = 6)
    (hb : al.thrust_min ≤ al.thrust_max) :
    al.allocate wrench_des desired_dir_body =
      Except.ok
        ⟨List.ofFn fun i : Fin al.rotors.length =>
          Real.sqrt (max (al.clamped_thrusts wrench_des desired_dir_body i) 0 /
            (if (al.rotors.get i).k_thrust > 1 / 1000000000
             then (al.rotors.get i).k_thrust else 1)),
         al.servo_cmds wrench_des desired_dir_body⟩ ∧
    ∀ i, al.clamped_thrusts wrench_des desired_dir_body i =
        min (max (al.raw_thrusts wrench_des desired_dir_body i) al.thrust_min) al.thrust_max ∧
      al.thrust_min ≤ al.clamped_thrusts wrench_des desired_dir_body i ∧
      al.clamped_thrusts wrench_des desired_dir_body i ≤ al.thrust_max := by
  constructor
  · unfold TiltAllocator.allocate
    rw [if_neg (by simp [hw])]
  · intro i
    refine ⟨rfl, ?_, min_le_right _ _⟩
    exact le_min (le_max_right _ _) hb

/-! ### C7: rotor command path of step_with_commands -/

theorem getD_zipWith {α β γ : Type} (f : α → β → γ) (l1 : List α) (l2 : List β)
    (i : ℕ) (d1 : α) (d2 : β) (d3 : γ) (h1 : i < l1.length) (h2 : i < l2.length) :
    (List.zipWith f l1 l2).getD i d3 = f (l1.getD i d1) (l2.getD i d2) := by
  induction l1 generalizing l2 i with
  | nil => simp at h1
  | cons a l ih =>
    cases l2 with
    | nil => simp at h2
    | cons b l2 =>
      cases i with
      | zero => simp
      | succ n =>
        simp only [List.zipWith_cons_cons, List.getD_cons_succ]
        exact ih l2 n (by simpa using h1) (by simpa using h2)

/-- The servo commands actually applied by step_with_commands, and the
updated servo actuator: through the second-order actuator when one is
configured, else as given (empty per-rotor lists when absent). -/
def servo_applied (d : DynamicsModel) (servo_angles : Option (List (List ℝ))) (h : ℝ) :
    List (List ℝ) × Option ServoSecondOrderActuator :=
  match d.servo_actuator with
  | some s => ((s.step servo_angles h).2, some (s.step servo_angles h).1)
  | none => (servo_angles.getD (d.rotors.map fun _ => []), none)

/-- C7: with no first-order rotor actuator configured, step_with_commands
applies the commanded spin speeds to the plant unchanged; with one
configured, each physical spin speed is updated by explicit Euler
ω ← ω + (cmd − ω)·dt/τ, clamped below by omega_min and — only when an
upper bound is configured — above by omega_max, and those speeds are
applied. -/
theorem c7_step_with_commands (d : DynamicsModel) (omega_cmds : List ℝ)
    (servo_angles : Option (List (List ℝ))) (h : ℝ) :
    (d.actuator = none →
      d.step_with_commands omega_cmds servo_angles h =
        DynamicsModel.step
          { d with actuator := none, servo_actuator := (servo_applied d servo_angles h).2 }
          ⟨omega_cmds, (servo_applied d servo_angles h).1⟩ h) ∧
    (∀ a, d.actuator = some a →
      (d.step_with_commands omega_cmds servo_angles h =
        DynamicsModel.step
          { d with actuator := some (a.step omega_cmds h),
                   servo_actuator := (servo_applied d servo_angles h).2 }
          ⟨(a.step omega_cmds h).omegas, (servo_applied d servo_angles h).1⟩ h) ∧
      (omega_cmds.length = a.omegas.length → a.tau.length = a.omegas.length →
       a.omega_min.length = a.omegas.length →
       (∀ ub, a.omega_max = some ub → ub.length = a.omegas.length) →
       ∀ i, i < a.omegas.length →
         (a.step omega_cmds h).omegas.getD i 0 =
           (match a.omega_max with
            | none =>
              max (a.omegas.getD i 0 +
                (omega_cmds.getD i 0 - a.omegas.getD i 0) * (h / a.tau.getD i 0))
                (a.omega_min.getD i 0)
            | some ub =>
              min (max (a.omegas.getD i 0 +
                  (omega_cmds.getD i 0 - a.omegas.getD i 0) * (h / a.tau.getD i 0))
                  (a.omega_min.getD i 0))
                (ub.getD i 0)))) := by
  constructor
  · intro hact
    unfold DynamicsModel.step_with_commands
    rw [hact]
    rfl
  · intro a hact
    constructor
    · unfold DynamicsModel.step_with_commands
      rw [hact]
      rfl
    · intro hl1 hl2 hl3 hl4 i hi
      have l_pairs : (List.zipWith Prod.mk a.omegas omega_cmds).length = a.omegas.length := by
        rw [List.length_zipWith, hl1, min_self]
      have l_raw : (List.zipWith (fun p tau_i => p.1 + (p.2 - p.1) * (h / tau_i))
          (List.zipWith Prod.mk a.omegas omega_cmds) a.tau).length = a.omegas.length := by
        rw [List.length_zipWith, l_pairs, hl2, min_self]
      have l_lo : (List.zipWith max
          (List.zipWith (fun p tau_i => p.1 + (p.2 - p.1) * (h / tau_i))
            (List.zipWith Prod.mk a.omegas omega_cmds) a.tau) a.omega_min).length =
          a.omegas.length := by
        rw [List.length_zipWith, l_raw, hl3, min_self]
      have hstep : (a.step omega_cmds h).omegas =
          (match a.omega_max with
           | none => List.zipWith max
              (List.zipWith (fun p tau_i => p.1 + (p.2 - p.1) * (h / tau_i))
                (List.zipWith Prod.mk a.omegas omega_cmds) a.tau) a.omega_min
           | some ub => List.zipWith min (List.zipWith max
              (List.zipWith (fun p tau_i => p.1 + (p.2 - p.1) * (h / tau_i))
                (List.zipWith Prod.mk a.omegas omega_cmds) a.tau) a.omega_min) ub) := rfl
      rw [hstep]
      cases hm : a.omega_max with
      | none =>
        rw [getD_zipWith max _ _ i 0 0 0 (by rw [l_raw]; exact hi) (by rw [hl3]; exact hi),
          getD_zipWith _ _ _ i (0, 0) 0 0 (by rw [l_pairs]; exact hi) (by rw [hl2]; exact hi),
          getD_zipWith Prod.mk _ _ i 0 0 (0, 0) hi (by rw [hl1]; exact hi)]
      | some ub =>
        rw [getD_zipWith min _ _ i 0 0 0 (by rw [l_lo]; exact hi)
            (by rw [hl4 ub hm]; exact hi),
          getD_zipWith max _ _ i 0 0 0 (by rw [l_raw]; exact hi) (by rw [hl3]; exact hi),
          getD_zipWith _ _ _ i (0, 0) 0 0 (by rw [l_pairs]; exact hi) (by rw [hl2]; exact hi),
          getD_zipWith Prod.mk _ _ i 0 0 (0, 0) hi (by rw [hl1]; exact hi)]

/-! ### C8: preferred direction and servo aiming -/

theorem normalize3_smul (v : V3) : normalize3 v = (norm3 v + 1 / 1000000000)⁻¹ • v := by
  funext i
  simp only [normalize3, Pi.smul_apply, smul_eq_mul, div_eq_inv_mul]

theorem dot3_smul_left (c : ℝ) (u v : V3) : dot3 (c • u) v = c * dot3 u v := by
  simp only [dot3, Pi.smul_apply, smul_eq_mul]; ring

theorem dot3_smul_right (c : ℝ) (u v : V3) : dot3 u (c • v) = c * dot3 u v := by
  simp only [dot3, Pi.smul_apply, smul_eq_mul]; ring

theorem cross3_smul_left (c : ℝ) (u v : V3) : cross3 (c • u) v = c • cross3 u v := by
  funext i; fin_cases i <;> (simp [cross3]; try ring)

theorem cross3_smul_right (c : ℝ) (u v : V3) : cross3 u (c • v) = c • cross3 u v := by
  funext i; fin_cases i <;> (simp [cross3]; try ring)

theorem atan2_scale (k y x : ℝ) (hk : 0 < k) : atan2 (k * y) (k * x) = atan2 y x := by
  unfold atan2
  rcases lt_trichotomy x 0 with hx | hx | hx
  · have hkx : k * x < 0 := mul_neg_of_pos_of_neg hk hx
    rw [if_neg (not_lt.2 hkx.le), if_neg (not_lt.2 hx.le), if_pos hkx, if_pos hx,
      mul_div_mul_left y x hk.ne']
    by_cases hy : 0 ≤ y
    · rw [if_pos (mul_nonneg hk.le hy), if_pos hy]
    · rw [if_neg (not_le.2 (mul_neg_of_pos_of_neg hk (not_le.1 hy))), if_neg hy]
  · subst hx
    rw [mul_zero, if_neg (lt_irrefl 0), if_neg (lt_irrefl 0), if_neg (lt_irrefl 0),
      if_neg (lt_irrefl 0)]
    by_cases hy : 0 < y
    · rw [if_pos (mul_pos hk hy), if_pos hy]
    · by_cases hy2 : y < 0
      · rw [if_neg (not_lt.2 (mul_neg_of_pos_of_neg hk hy2).le), if_neg hy,
          if_pos (mul_neg_of_pos_of_neg hk hy2), if_pos hy2]
      · have hy0 : y = 0 := le_antisymm (not_lt.1 hy) (not_lt.1 hy2)
        subst hy0
        rw [mul_zero]
  · have hkx : 0 < k * x := mul_pos hk hx
    rw [if_pos hkx, if_pos hx, mul_div_mul_left y x hk.ne']

/-- The tilt angle as the spec words it: the signed angle
atan2(axis·(r×d), r·d) between the (unnormalized) projections r, d of the
rotor axis and the preferred direction onto the plane orthogonal to the
hinge axis, and 0 when either projection is degenerate. -/
def tilt_angle_spec (axis_body rotor_axis_body desired_dir_body : V3) : ℝ :=
  let a := normalize3 axis_body
  let r_proj := rotor_axis_body - dot3 a rotor_axis_body • a
  let d_proj := desired_dir_body - dot3 a desired_dir_body • a
  if norm3 r_proj < 1 / 1000000000 ∨ norm3 d_proj < 1 / 1000000000 then 0
  else atan2 (dot3 a (cross3 r_proj d_proj)) (dot3 r_proj d_proj)

theorem tilt_angle_eq_spec (axis_body rotor_axis_body desired_dir_body : V3) :
    tilt_angle_to_align axis_body rotor_axis_body desired_dir_body =
      tilt_angle_spec axis_body rotor_axis_body desired_dir_body := by
  simp only [tilt_angle_to_align, tilt_angle_spec]
  by_cases hcond :
      norm3 (rotor_axis_body - dot3 (normalize3 axis_body) rotor_axis_body • normalize3 axis_body)
        < 1 / 1000000000 ∨
      norm3 (desired_dir_body - dot3 (normalize3 axis_body) desired_dir_body • normalize3 axis_body)
        < 1 / 1000000000
  · rw [if_pos hcond, if_pos hcond]
  · rw [if_neg hcond, if_neg hcond]
    set a := normalize3 axis_body
    set rp := rotor_axis_body - dot3 a rotor_axis_body • a
    set dp := desired_dir_body - dot3 a desired_dir_body • a
    have hrpos : (0 : ℝ) < norm3 rp + 1 / 1000000000 := by
      have h0 : (0 : ℝ) ≤ norm3 rp := Real.sqrt_nonneg _
      linarith
    have hdpos : (0 : ℝ) < norm3 dp + 1 / 1000000000 := by
      have h0 : (0 : ℝ) ≤ norm3 dp := Real.sqrt_nonneg _
      linarith
    have hcr : (0 : ℝ) < (norm3 rp + 1 / 1000000000)⁻¹ := inv_pos.2 hrpos
    have hcd : (0 : ℝ) < (norm3 dp + 1 / 1000000000)⁻¹ := inv_pos.2 hdpos
    have e1 : dot3 a (cross3 (normalize3 rp) (normalize3 dp)) =
        ((norm3 rp + 1 / 1000000000)⁻¹ * (norm3 dp + 1 / 1000000000)⁻¹) *
          dot3 a (cross3 rp dp) := by
      rw [normalize3_smul rp, normalize3_smul dp, cross3_smul_left, cross3_smul_right,
        dot3_smul_right, dot3_smul_right]
      ring
    have e2 : dot3 (normalize3 rp) (normalize3 dp) =
        ((norm3 rp + 1 / 1000000000)⁻¹ * (norm3 dp + 1 / 1000000000)⁻¹) * dot3 rp dp := by
      rw [normalize3_smul rp, normalize3_smul dp, dot3_smul_left, dot3_smul_right]
      ring
    rw [e1, e2, atan2_scale _ _ _ (mul_pos hcr hcd)]

/-- C8: allocate resolves the preferred thrust direction (explicit
argument normalized; else the normalized wrench force part above the
1e-6 threshold; else body +Z), and commands, for each rotor with a hinge
axis, the single signed angle between the projections of the rotor base
+Z axis and the preferred direction onto the plane orthogonal to the
first hinge axis (expressed in the body frame), 0 in the degenerate case,
clamped to ±tilt_limit; rotors without hinge axes get an empty list. -/
theorem c8_servo_aiming (al : TiltAllocator) (wrench_des : List ℝ)
    (desired_dir_body : Option V3) (hw : wrench_des.length = 6) :
    (∃ u, al.allocate wrench_des desired_dir_body = Except.ok u ∧
      u.servo_angles = al.servo_cmds wrench_des desired_dir_body) ∧
    TiltAllocator.dir_pref wrench_des desired_dir_body =
      (match desired_dir_body with
       | some dd => normalize3 dd
       | none =>
         if norm3 ![wrench_des.getD 0 0, wrench_des.getD 1 0, wrench_des.getD 2 0] > 1 / 1000000
         then normalize3 ![wrench_des.getD 0 0, wrench_des.getD 1 0, wrench_des.getD 2 0]
         else ![0, 0, 1]) ∧
    ∀ r ∈ al.rotors,
      (r.tilt_axes = [] →
        al.aim_servo_single_axis r (TiltAllocator.dir_pref wrench_des desired_dir_body) = []) ∧
      (∀ ax rest, r.tilt_axes = ax :: rest →
        al.aim_servo_single_axis r (TiltAllocator.dir_pref wrench_des desired_dir_body) =
          [min (max (tilt_angle_spec (r.axis_in_baselink ax)
              (r.base_orientation_baselink.mulVec ![0, 0, 1])
              (TiltAllocator.dir_pref wrench_des desired_dir_body)) (-al.tilt_limit))
            al.tilt_limit]) := by
  refine ⟨?_, rfl, ?_⟩
  · simp only [TiltAllocator.allocate, hw]
    exact ⟨_, by rfl, rfl⟩
  · intro r _
    constructor
    · intro hz
      unfold TiltAllocator.aim_servo_single_axis
      rw [hz]
    · intro ax rest hcons
      unfold TiltAllocator.aim_servo_single_axis
      rw [hcons]
      show [min (max (tilt_angle_to_align (r.axis_in_baselink ax)
          (r.base_orientation_baselink.mulVec ![0, 0, 1])
          (TiltAllocator.dir_pref wrench_des desired_dir_body)) (-al.tilt_limit))
        al.tilt_limit] = _
      rw [tilt_angle_eq_spec]

/-! ### Concrete witnesses -/

/-- A fixed (non-tilting) rotor at position [1,0,0] with identity base
orientation. -/
def rotor_w : RotorConfig :=
  ⟨![1, 0, 0], 1, none, none, 1 / 100, 1 / 10000, 1, 0, 0⟩

/-- The default initial state: origin, at rest, identity attitude. -/
def x_rest : S13 := ![0, 0, 0, 0, 0, 0, 1, 0, 0, 0, 0, 0, 0]

/-- A one-rotor vehicle with gravity 0 and no ground plane, at rest. -/
def d_rest : DynamicsModel :=
  ⟨1, 0, 1, [rotor_w], 1 / 200, none, none, none, 0, 0, x_rest, 0⟩

/-- The zero-spin control input for one rotor. -/
def u_zero : ControlInput := ⟨[0], [[]]⟩

theorem c10_witness : (DynamicsModel.stepN u_zero (1 / 200) 3 d_rest).x = d_rest.x :=
  (c10_zero_command_rest d_rest u_zero (1 / 200) rfl rfl
    (by funext i; fin_cases i <;> rfl) (by funext i; fin_cases i <;> rfl)
    (by intro a ha; simpa [u_zero] using ha)).2 3

theorem c9_witness : rotation_body_from_servos rotor_w [] = rotor_w.base_orientation_baselink :=
  (c9_rotation_composes rotor_w []).2 rfl

/-- A 6-element zero wrench. -/
def w6 : List ℝ := [0, 0, 0, 0, 0, 0]

/-- An allocator over no rotors. -/
def al0 : TiltAllocator := ⟨[], 0, 30, 1, 1 / 10000, 1⟩

/-- An allocator over one fixed rotor. -/
def al1 : TiltAllocator := ⟨[rotor_w], 0, 30, 1, 1 / 10000, 1⟩

theorem c3_witness : ∃ u, al0.allocate w6 none = Except.ok u :=
  (c3_allocate_never_raises al0 w6 none rfl).1

theorem c4_witness :
    al1.thrust_min ≤ al1.clamped_thrusts w6 none ⟨0, by norm_num [al1]⟩ ∧
    al1.clamped_thrusts w6 none ⟨0, by norm_num [al1]⟩ ≤ al1.thrust_max := by
  have h := (c4_thrust_clamped al1 w6 none rfl (by norm_num [al1])).2 ⟨0, by norm_num [al1]⟩
  exact ⟨h.2.1, h.2.2⟩

theorem c8_witness :
    ∃ u, al1.allocate w6 none = Except.ok u ∧ u.servo_angles = al1.servo_cmds w6 none :=
  (c8_servo_aiming al1 w6 none rfl).1

/-- A one-rotor first-order actuator with time constant 0.1, lower bound 0,
no upper bound, at rest. -/
def act1 : RotorFirstOrderActuator := ⟨[1 / 10], [0], none, [0]⟩

/-- A one-rotor vehicle with the first-order actuator configured. -/
def d_act : DynamicsModel :=
  ⟨1, 981 / 100, 1, [rotor_w], 1 / 200, some act1, none, none, 0, 0, x_rest, 0⟩

theorem c7_witness :
    (act1.step [2] (1 / 100)).omegas.getD 0 0 =
      max ((0 : ℝ) + (2 - 0) * ((1 / 100) / (1 / 10))) 0 :=
  (((c7_step_with_commands d_act [2] none (1 / 100)).2 act1 rfl).2) rfl rfl rfl
    (fun _ hcon => by cases hcon) 0 (by norm_num [act1])
